import Mathlib

/-!
Verification of the rubato 2D physics/collision core: a shallow embedding of
`rubato/classes/components/hitbox.py` and `rubato/classes/components/rigidbody.py`
over the reals, together with theorems settling the specified behavioural
properties of the SAT collision tests, the `collide` dispatch, and the
impulse-based collision resolver.

Python floats are modelled as real numbers.  The vector/time utility modules
(`rubato.utils.Vector`, `Time`) and the `Manifold` container are not part of
the embedded sources; they are modelled from the specification, and each such
definition is marked `Modelled from the spec:` in its doc comment.
-/

noncomputable section

namespace Rubato

/-- Modelled from the spec: basic 2D vector algebra (the `rubato.utils.Vector`
module is external to the embedded sources).  A vector is an `x`/`y` pair of
reals. -/
structure Vector where
  x : ℝ
  y : ℝ

namespace Vector

instance : Add Vector := ⟨fun v w => ⟨v.x + w.x, v.y + w.y⟩⟩

instance : Sub Vector := ⟨fun v w => ⟨v.x - w.x, v.y - w.y⟩⟩

instance : Neg Vector := ⟨fun v => ⟨-v.x, -v.y⟩⟩

instance : HMul Vector ℝ Vector := ⟨fun v r => ⟨v.x * r, v.y * r⟩⟩

instance : HMul ℝ Vector Vector := ⟨fun r v => ⟨r * v.x, r * v.y⟩⟩

/-- Modelled from the spec: rubato's `Vector + scalar` adds the scalar to both
components (used by `SAT.project_verts(...) + axis.dot(offset)`). -/
instance : HAdd Vector ℝ Vector := ⟨fun v r => ⟨v.x + r, v.y + r⟩⟩

@[simp] theorem add_def (v w : Vector) : v + w = ⟨v.x + w.x, v.y + w.y⟩ := rfl

@[simp] theorem sub_def (v w : Vector) : v - w = ⟨v.x - w.x, v.y - w.y⟩ := rfl

@[simp] theorem neg_def (v : Vector) : -v = ⟨-v.x, -v.y⟩ := rfl

@[simp] theorem mul_real_def (v : Vector) (r : ℝ) : v * r = ⟨v.x * r, v.y * r⟩ := rfl

@[simp] theorem real_mul_def (r : ℝ) (v : Vector) : r * v = ⟨r * v.x, r * v.y⟩ := rfl

@[simp] theorem add_real_def (v : Vector) (r : ℝ) : v + r = ⟨v.x + r, v.y + r⟩ := rfl

/-- Modelled from the spec: dot product. -/
def dot (v w : Vector) : ℝ := v.x * w.x + v.y * w.y

/-- Modelled from the spec: the 2D cross of vector × vector yields a scalar. -/
def cross (v w : Vector) : ℝ := v.x * w.y - v.y * w.x

/-- Modelled from the spec: Euclidean magnitude. -/
def magnitude (v : Vector) : ℝ := Real.sqrt (v.x ^ 2 + v.y ^ 2)

/-- Modelled from the spec: normalization to unit length (division by the
magnitude, componentwise). -/
def unit (v : Vector) : Vector := ⟨v.x / v.magnitude, v.y / v.magnitude⟩

/-- Modelled from the spec: the perpendicular-velocity contribution of angular
velocity at a contact point (`contact⊥ · angVel`). -/
def perpendicular (v : Vector) (scalar : ℝ) : Vector := ⟨scalar * v.y, -scalar * v.x⟩

/-- Modelled from the spec: componentwise clamp into `[lower, upper]`. -/
def clamp (v lower upper : Vector) : Vector :=
  ⟨max lower.x (min v.x upper.x), max lower.y (min v.y upper.y)⟩

/-- Modelled from the spec: `transformedVertices()` applies scale then rotation
(degrees) to a local vertex. -/
def transform (v : Vector) (scale rotation : ℝ) : Vector :=
  let θ := rotation * Real.pi / 180
  ⟨(v.x * Real.cos θ - v.y * Real.sin θ) * scale,
   (v.x * Real.sin θ + v.y * Real.cos θ) * scale⟩

end Vector

namespace Time

/-- Modelled from the spec: the scheduler supplies deltas in milliseconds;
`milli_to_sec` converts to seconds. -/
def milli_to_sec (t : ℝ) : ℝ := t / 1000

end Time

/-- The data of a `Circle` hitbox: a world position (the `_pos` thunk's value),
a radius, a scale, and the `trigger` flag inherited from `Hitbox`. -/
structure Circle where
  pos : Vector
  radius : ℝ
  scale : ℝ
  trigger : Bool

/-- `Circle.transformed_radius`: the "true radius", `radius * scale`
(hitbox.py line 314). -/
def Circle.transformed_radius (c : Circle) : ℝ := c.radius * c.scale

/-- The data of a `Polygon` hitbox: world position, local vertices, rotation
(degrees), scale, and the `trigger` flag inherited from `Hitbox`. -/
structure Polygon where
  pos : Vector
  verts : List Vector
  rotation : ℝ
  scale : ℝ
  trigger : Bool

/-- `Polygon.transformed_verts`: each vertex mapped through the polygon's scale
and rotation (hitbox.py lines 182–185). -/
def Polygon.transformed_verts (p : Polygon) : List Vector :=
  p.verts.map (fun v => v.transform p.scale p.rotation)

/-- A hitbox shape is either a circle or a polygon. -/
inductive Shape
  | circle (c : Circle)
  | polygon (p : Polygon)

/-- The `trigger` flag of a shape. -/
def Shape.trigger : Shape → Bool
  | .circle c => c.trigger
  | .polygon p => p.trigger

/-- `Polygon.__init__` (hitbox.py lines 84–104): merges the options over the
defaults and assigns the fields.  It performs no vertex-count validation, so it
never fails; the position thunk defaults to `Vector(0, 0)` (from
`Hitbox.__init__`). -/
def polygonInit (verts : List Vector) (rotation scale : ℝ) (trigger : Bool) :
    Except String Polygon :=
  .ok ⟨⟨0, 0⟩, verts, rotation, scale, trigger⟩

/-- `Polygon.generate_polygon` (hitbox.py lines 126–156): raises `SideError`
when `num_sides < 3`, else returns the `num_sides` vertices of a regular
polygon of the given radius. -/
def generate_polygon (num_sides : ℕ) (radius : ℝ) : Except String (List Vector) :=
  if num_sides < 3 then
    .error "SideError: cannot create a polygon with less than three sides"
  else
    .ok ((List.range num_sides).map fun (i : ℕ) =>
      let rotangle := 2 * Real.pi / (num_sides : ℝ)
      let angle := (i : ℝ) * rotangle + (Real.pi - rotangle) / 2
      ⟨Real.cos angle * radius, Real.sin angle * radius⟩)

/-- The result of a successful collision test: references to the two shapes and
the separating vector (hitbox.py lines 353–369; `shape_a`/`shape_b`/`sep` are
the only data fields). -/
structure CollisionInfo where
  shape_a : Shape
  shape_b : Shape
  sep : Vector

namespace SAT

/-- `SAT.project_verts` (hitbox.py lines 528–541): the min/max of the dot
products of the vertices with the axis, packed as a vector `(min, max)`.  The
source folds from `(+inf, −inf)`; over the reals this is the fold from the
first projection (no caller in the verified claims projects an empty list). -/
def project_verts (verts : List Vector) (axis : Vector) : Vector :=
  match verts.map (fun v => axis.dot v) with
  | [] => ⟨0, 0⟩
  | d :: rest => ⟨rest.foldl min d, rest.foldl max d⟩

/-- `SAT.perpendicular_axis` (hitbox.py lines 519–526): the normalized
perpendicular of the side from vertex `index` to the next (wrapping). -/
def perpendicular_axis (verts : List Vector) (index : ℕ) : Vector :=
  let pt_1 := verts.getD index ⟨0, 0⟩
  let pt_2 := verts.getD ((index + 1) % verts.length) ⟨0, 0⟩
  Vector.unit ⟨pt_1.y - pt_2.y, pt_2.x - pt_1.x⟩

/-- `SAT.circle_circle_test` (hitbox.py lines 413–428): compares the center
distance against the sum of the *raw* radii (`shape_a.radius + shape_b.radius`)
with a strict `>`, returning the separation `unit(posA − posB) * (R − d)`
otherwise. -/
def circle_circle_test (shape_a shape_b : Circle) : Option CollisionInfo :=
  let total_radius := shape_a.radius + shape_b.radius
  let distance := (shape_b.pos - shape_a.pos).magnitude
  if distance > total_radius then none
  else some ⟨.circle shape_a, .circle shape_b,
             (shape_a.pos - shape_b.pos).unit * (total_radius - distance)⟩

/-- The closest-vertex scan of `circle_polygon_test` (hitbox.py lines 445–450):
walks the transformed vertices tracking the vertex (in world space,
`shape_b.pos + v`) whose distance to the circle center is shortest.  The
source's `shortest` starts at `INFINITY`; `none` plays that role here, so the
first vertex always wins the first comparison, exactly as in the source. -/
def closest_loop (shape_a_pos shape_b_pos : Vector) :
    List Vector → Option ℝ → Vector → Vector
  | [], _, closest => closest
  | v :: rest, shortest, closest =>
    let dist := (shape_a_pos - shape_b_pos - v).magnitude
    match shortest with
    | none => closest_loop shape_a_pos shape_b_pos rest (some dist) (shape_b_pos + v)
    | some s =>
      if dist < s then closest_loop shape_a_pos shape_b_pos rest (some dist) (shape_b_pos + v)
      else closest_loop shape_a_pos shape_b_pos rest (some s) closest

/-- The edge-normal loop of `circle_polygon_test` (hitbox.py lines 468–481):
for each polygon edge, project the polygon and the circle on the edge normal;
a gap on any axis is an early `none`, otherwise the minimum-|dist_min| axis
(sign-flipped under `flip`) is tracked into `sep`. -/
def cp_loop (verts : List Vector) (offset circle_range : Vector) (flip : Bool) :
    List ℕ → ℝ → Vector → Option Vector
  | [], _, sep => some sep
  | index :: rest, shortest, sep =>
    let axis := perpendicular_axis verts index
    let poly_range := project_verts verts axis + axis.dot offset
    if poly_range.x > circle_range.y ∨ circle_range.x > poly_range.y then none
    else
      let dist_min := (if flip then -1 else 1) * (poly_range.x - circle_range.y)
      if |dist_min| < shortest then
        cp_loop verts offset circle_range flip rest |dist_min| (axis * dist_min)
      else
        cp_loop verts offset circle_range flip rest shortest sep

/-- `SAT.circle_polygon_test` (hitbox.py lines 430–483): attribution is
`(shape_b, shape_a)` when `flip` else `(shape_a, shape_b)`; the axis through
the closest vertex is tested first, then every edge normal; the loops only
ever update `sep`, never the attribution. -/
def circle_polygon_test (shape_a : Circle) (shape_b : Polygon) (flip : Bool) :
    Option CollisionInfo :=
  let pair : Shape × Shape :=
    if flip then (.polygon shape_b, .circle shape_a) else (.circle shape_a, .polygon shape_b)
  let verts := shape_b.transformed_verts
  let offset := shape_b.pos - shape_a.pos
  let closest := closest_loop shape_a.pos shape_b.pos verts none ⟨0, 0⟩
  let axis := (closest - shape_a.pos).unit
  let poly_range := project_verts verts axis + axis.dot offset
  let r := shape_a.transformed_radius
  let circle_range : Vector := ⟨-r, r⟩
  if poly_range.x > circle_range.y ∨ circle_range.x > poly_range.y then none
  else
    let dist_min := (if flip then -1 else 1) * (poly_range.x - circle_range.y)
    (cp_loop verts offset circle_range flip (List.range verts.length)
        |dist_min| (axis * dist_min)).map
      (fun sep => ⟨pair.1, pair.2, sep⟩)

/-- The edge loop of `polygon_polygon_test` (hitbox.py lines 502–515): for each
edge normal of `verts_a`, project both vertex sets; a gap on any axis is an
early `none`, otherwise the minimum-|min_dist| axis is tracked into `sep`.
The source's `shortest` starts at `INFINITY`; `none` plays that role here. -/
def pp_loop (verts_a verts_b : List Vector) (offset : Vector) (flip : Bool) :
    List ℕ → Option ℝ → Vector → Option Vector
  | [], _, sep => some sep
  | index :: rest, shortest, sep =>
    let axis := perpendicular_axis verts_a index
    let a_range := project_verts verts_a axis + axis.dot offset
    let b_range := project_verts verts_b axis
    if a_range.x > b_range.y ∨ b_range.x > a_range.y then none
    else
      let min_dist := if flip then a_range.x - b_range.y else b_range.x - a_range.y
      let upd : Option ℝ × Vector :=
        match shortest with
        | none => (some |min_dist|, axis * min_dist)
        | some s =>
          if |min_dist| < s then (some |min_dist|, axis * min_dist) else (some s, sep)
      pp_loop verts_a verts_b offset flip rest upd.1 upd.2

/-- `SAT.polygon_polygon_test` (hitbox.py lines 485–517): attribution is
`(shape_b, shape_a)` when `flip` else `(shape_a, shape_b)`; the loop sweeps
`shape_a`'s edge normals and only ever updates `sep`. -/
def polygon_polygon_test (shape_a shape_b : Polygon) (flip : Bool) :
    Option CollisionInfo :=
  let pair : Shape × Shape :=
    if flip then (.polygon shape_b, .polygon shape_a) else (.polygon shape_a, .polygon shape_b)
  let verts_a := shape_a.transformed_verts
  let verts_b := shape_b.transformed_verts
  let offset := shape_a.pos - shape_b.pos
  (pp_loop verts_a verts_b offset flip (List.range verts_a.length) none ⟨0, 0⟩).map
    (fun sep => ⟨pair.1, pair.2, sep⟩)

/-- `SAT.overlap` (hitbox.py lines 381–411): dispatch on the shape pair; the
polygon–polygon case runs both sweeps and keeps the smaller-magnitude
separation. -/
def overlap (shape_a shape_b : Shape) : Option CollisionInfo :=
  match shape_a, shape_b with
  | .circle ca, .circle cb => circle_circle_test ca cb
  | .circle ca, .polygon pb => circle_polygon_test ca pb false
  | .polygon pa, .circle cb => circle_polygon_test cb pa true
  | .polygon pa, .polygon pb =>
    match polygon_polygon_test pa pb false with
    | none => none
    | some test_a_b =>
      match polygon_polygon_test pb pa true with
      | none => none
      | some test_b_a =>
        if test_a_b.sep.magnitude < test_b_a.sep.magnitude then some test_a_b
        else some test_b_a

end SAT

/-- The observable effect of one `Hitbox.collide` call: whether
`RigidBody.handle_collision` was dispatched, and which of the three callbacks
(call-site, the receiver's own, the other shape's own) ran. -/
structure CollideEffect where
  resolved : Bool
  site_callback : Bool
  self_callback : Bool
  other_callback : Bool

/-- `Hitbox.collide` (hitbox.py lines 45–71): when `SAT.overlap` is non-null,
resolution is dispatched iff the *receiver* is not a trigger and at least one
of the two sprites has a `RigidBody`; the three callbacks always run on a
non-null overlap.  `hitbox_self`/`hitbox_other` are the receiver and argument
shapes; the `Bool`s say whether each one's sprite has a `RigidBody`. -/
def collide (hitbox_self hitbox_other : Shape) (self_has_rb other_has_rb : Bool) :
    CollideEffect :=
  match SAT.overlap hitbox_self hitbox_other with
  | none => ⟨false, false, false, false⟩
  | some _ => ⟨!hitbox_self.trigger && (self_has_rb || other_has_rb), true, true, true⟩

end Rubato

namespace Rubato

/-- helper: the magnitude of the difference of two points on the x-axis. -/
theorem magnitude_sub_axis (p q : ℝ) (h : q ≤ p) :
    ((⟨p, 0⟩ : Vector) - ⟨q, 0⟩).magnitude = p - q := by
  show Vector.magnitude ⟨p - q, 0 - 0⟩ = p - q
  rw [Vector.magnitude]
  norm_num
  exact Real.sqrt_sq (sub_nonneg.2 h)

/-- C1 counterexample: the claim "exact tangency returns null" is false.  Two
unit circles whose centers are exactly 2 apart (distance = radius sum) do
produce a manifold: the strict `>` no-collision test fails at equality, so
touching counts as a collision. -/
theorem circle_circle_tangency_collides :
    ((⟨2, 0⟩ : Vector) - ⟨0, 0⟩).magnitude = 1 + 1 ∧
      SAT.circle_circle_test ⟨⟨0, 0⟩, 1, 1, false⟩ ⟨⟨2, 0⟩, 1, 1, false⟩ ≠ none := by
  have hm := magnitude_sub_axis 2 0 (by norm_num)
  refine ⟨by rw [hm]; norm_num, ?_⟩
  have hno : ¬ ((⟨2, 0⟩ : Vector) - ⟨0, 0⟩).magnitude > (1 : ℝ) + 1 := by
    rw [hm]; norm_num
  simp only [SAT.circle_circle_test, if_neg hno]
  exact Option.some_ne_none _

/-- C1 (amended): for every pair of circles, distance strictly greater than the
sum of the raw radii returns `none`; at exact tangency the strict `>` test
fails, so the test returns a zero-separation manifold. -/
theorem circle_circle_boundary (a b : Circle) :
    ((b.pos - a.pos).magnitude > a.radius + b.radius →
      SAT.circle_circle_test a b = none) ∧
    ((b.pos - a.pos).magnitude = a.radius + b.radius →
      SAT.circle_circle_test a b = some ⟨.circle a, .circle b, ⟨0, 0⟩⟩) := by
  constructor
  · intro h
    simp only [SAT.circle_circle_test, if_pos h]
  · intro h
    have hlt : ¬ (b.pos - a.pos).magnitude > a.radius + b.radius := by
      rw [h]; exact lt_irrefl _
    simp only [SAT.circle_circle_test, if_neg hlt]
    have hz : a.radius + b.radius - (b.pos - a.pos).magnitude = 0 := by
      rw [h]; ring
    rw [hz]
    simp [Vector.unit]

/-- C1 witness: at distance 3 > 1 + 1 the test returns `none`; at distance
2 = 1 + 1 it returns the zero-separation manifold. -/
theorem circle_circle_boundary_witness :
    SAT.circle_circle_test ⟨⟨0, 0⟩, 1, 1, false⟩ ⟨⟨3, 0⟩, 1, 1, false⟩ = none ∧
    SAT.circle_circle_test ⟨⟨0, 0⟩, 1, 1, false⟩ ⟨⟨2, 0⟩, 1, 1, false⟩ =
      some ⟨.circle ⟨⟨0, 0⟩, 1, 1, false⟩, .circle ⟨⟨2, 0⟩, 1, 1, false⟩, ⟨0, 0⟩⟩ := by
  constructor
  · refine (circle_circle_boundary _ _).1 ?_
    rw [magnitude_sub_axis 3 0 (by norm_num)]
    norm_num
  · refine (circle_circle_boundary _ _).2 ?_
    rw [magnitude_sub_axis 2 0 (by norm_num)]
    norm_num

/-- C3: `circle_circle_test` ignores the circles' scales.  Two circles of
radius 1 and scale 2 with centers 3 apart have effective (transformed) radii
summing to 4 > 3, yet the test returns `none` because it compares against the
raw radius sum 1 + 1 = 2 < 3 — it never calls `transformed_radius`, unlike
`circle_polygon_test`. -/
theorem circle_circle_ignores_scale :
    SAT.circle_circle_test ⟨⟨0, 0⟩, 1, 2, false⟩ ⟨⟨3, 0⟩, 1, 2, false⟩ = none ∧
    Circle.transformed_radius ⟨⟨0, 0⟩, 1, 2, false⟩ +
      Circle.transformed_radius ⟨⟨3, 0⟩, 1, 2, false⟩ = 4 ∧
    ((⟨3, 0⟩ : Vector) - ⟨0, 0⟩).magnitude = 3 := by
  have hm := magnitude_sub_axis 3 0 (by norm_num)
  refine ⟨?_, by rw [Circle.transformed_radius, Circle.transformed_radius]; norm_num,
    by rw [hm]; norm_num⟩
  have hgt : ((⟨3, 0⟩ : Vector) - ⟨0, 0⟩).magnitude > (1 : ℝ) + 1 := by
    rw [hm]; norm_num
  simp only [SAT.circle_circle_test, if_pos hgt]

/-- helper for C7: whether `pp_loop` returns `none` depends only on the vertex
lists, the offset and the index list — never on the `flip` flag or on the
tracked accumulator (`shortest`, `sep`), because the early-return separation
test on each axis mentions neither. -/
theorem pp_loop_none_congr (verts_a verts_b : List Vector) (offset : Vector) :
    ∀ (idxs : List ℕ) (f₁ f₂ : Bool) (s₁ s₂ : Option ℝ) (p₁ p₂ : Vector),
      (SAT.pp_loop verts_a verts_b offset f₁ idxs s₁ p₁ = none ↔
        SAT.pp_loop verts_a verts_b offset f₂ idxs s₂ p₂ = none) := by
  intro idxs
  induction idxs with
  | nil =>
    intro f₁ f₂ s₁ s₂ p₁ p₂
    simp [SAT.pp_loop]
  | cons index rest ih =>
    intro f₁ f₂ s₁ s₂ p₁ p₂
    simp only [SAT.pp_loop]
    by_cases hc :
        (SAT.project_verts verts_a (SAT.perpendicular_axis verts_a index) +
            (SAT.perpendicular_axis verts_a index).dot offset).x >
            (SAT.project_verts verts_b (SAT.perpendicular_axis verts_a index)).y ∨
          (SAT.project_verts verts_b (SAT.perpendicular_axis verts_a index)).x >
            (SAT.project_verts verts_a (SAT.perpendicular_axis verts_a index) +
              (SAT.perpendicular_axis verts_a index).dot offset).y
    · rw [if_pos hc, if_pos hc]
    · rw [if_neg hc, if_neg hc]
      exact ih _ _ _ _ _ _

/-- helper for C7: the same flip/accumulator independence lifted to
`polygon_polygon_test`. -/
theorem polygon_polygon_test_none_congr (a b : Polygon) (f₁ f₂ : Bool) :
    (SAT.polygon_polygon_test a b f₁ = none ↔ SAT.polygon_polygon_test a b f₂ = none) := by
  simp only [SAT.polygon_polygon_test, Option.map_eq_none']
  exact pp_loop_none_congr _ _ _ _ f₁ f₂ _ _ _ _

/-- helper for C7: `overlap` on a polygon pair is `none` exactly when one of
the two sweeps reports a separating axis. -/
theorem overlap_polygon_none_iff (pa pb : Polygon) :
    SAT.overlap (.polygon pa) (.polygon pb) = none ↔
      (SAT.polygon_polygon_test pa pb false = none ∨
        SAT.polygon_polygon_test pb pa true = none) := by
  simp only [SAT.overlap]
  cases h₁ : SAT.polygon_polygon_test pa pb false <;>
    cases h₂ : SAT.polygon_polygon_test pb pa true <;>
      simp [h₁, h₂]
  split_ifs <;> simp

/-- C7: for every pair of polygons, `SAT.overlap (a, b)` returns `None` iff
`SAT.overlap (b, a)` returns `None`: the separating-axis early exits do not
depend on the flip flag, and `overlap` takes the disjunction of the same two
sweeps in either argument order. -/
theorem overlap_polygon_symm (pa pb : Polygon) :
    (SAT.overlap (.polygon pa) (.polygon pb) = none ↔
      SAT.overlap (.polygon pb) (.polygon pa) = none) := by
  rw [overlap_polygon_none_iff, overlap_polygon_none_iff,
    polygon_polygon_test_none_congr pb pa true false,
    polygon_polygon_test_none_congr pa pb false true]
  exact or_comm

/-- helper for C9: `circle_circle_test` attributes the manifold to its
arguments in order. -/
theorem circle_circle_test_attrib (a b : Circle) (ci : CollisionInfo)
    (h : SAT.circle_circle_test a b = some ci) :
    ci.shape_a = Shape.circle a ∧ ci.shape_b = Shape.circle b := by
  simp only [SAT.circle_circle_test] at h
  split at h
  · exact absurd h (by simp)
  · obtain rfl : _ = ci := Option.some_injective _ h
    exact ⟨rfl, rfl⟩

/-- helper for C9: `circle_polygon_test` attributes the manifold according to
its `flip` flag; the loops only update `sep`. -/
theorem circle_polygon_test_attrib (ca : Circle) (pb : Polygon) (flip : Bool)
    (ci : CollisionInfo) (h : SAT.circle_polygon_test ca pb flip = some ci) :
    ci.shape_a = (if flip then Shape.polygon pb else Shape.circle ca) ∧
      ci.shape_b = (if flip then Shape.circle ca else Shape.polygon pb) := by
  simp only [SAT.circle_polygon_test] at h
  split at h
  · exact absurd h (by simp)
  · rw [Option.map_eq_some'] at h
    obtain ⟨sep, -, rfl⟩ := h
    cases flip <;> exact ⟨rfl, rfl⟩

/-- helper for C9: `polygon_polygon_test` attributes the manifold according to
its `flip` flag; the loop only updates `sep`. -/
theorem polygon_polygon_test_attrib (a b : Polygon) (flip : Bool)
    (ci : CollisionInfo) (h : SAT.polygon_polygon_test a b flip = some ci) :
    ci.shape_a = (if flip then Shape.polygon b else Shape.polygon a) ∧
      ci.shape_b = (if flip then Shape.polygon a else Shape.polygon b) := by
  simp only [SAT.polygon_polygon_test, Option.map_eq_some'] at h
  obtain ⟨sep, -, rfl⟩ := h
  cases flip <;> exact ⟨rfl, rfl⟩

/-- C9: whenever `SAT.overlap (a, b)` returns a manifold, its `shape_a` field
is `a` and its `shape_b` field is `b`: every dispatch branch passes a `flip`
flag that restores the caller's original argument order. -/
theorem overlap_attribution (a b : Shape) (ci : CollisionInfo)
    (h : SAT.overlap a b = some ci) : ci.shape_a = a ∧ ci.shape_b = b := by
  cases a with
  | circle ca =>
    cases b with
    | circle cb => exact circle_circle_test_attrib ca cb ci h
    | polygon pb =>
      have := circle_polygon_test_attrib ca pb false ci h
      simpa using this
  | polygon pa =>
    cases b with
    | circle cb =>
      have := circle_polygon_test_attrib cb pa true ci h
      simpa using this
    | polygon pb =>
      simp only [SAT.overlap] at h
      cases h₁ : SAT.polygon_polygon_test pa pb false with
      | none => rw [h₁] at h; exact absurd h (by simp)
      | some test_a_b =>
        rw [h₁] at h
        cases h₂ : SAT.polygon_polygon_test pb pa true with
        | none => rw [h₂] at h; exact absurd h (by simp)
        | some test_b_a =>
          rw [h₂] at h
          have ha := polygon_polygon_test_attrib pa pb false test_a_b h₁
          have hb := polygon_polygon_test_attrib pb pa true test_b_a h₂
          dsimp only at h
          split_ifs at h <;> obtain rfl : _ = ci := Option.some_injective _ h
          · simpa using ha
          · simpa using hb

/-- helper: two unit circles whose centers are 1 apart do overlap, for any
trigger flags. -/
theorem circle_overlap_isSome (t₁ t₂ : Bool) :
    (SAT.overlap (.circle ⟨⟨0, 0⟩, 1, 1, t₁⟩) (.circle ⟨⟨1, 0⟩, 1, 1, t₂⟩)).isSome := by
  have h := magnitude_sub_axis 1 0 (by norm_num)
  simp only [SAT.overlap, SAT.circle_circle_test]
  rw [if_neg (by rw [h]; norm_num)]
  rfl

/-- C9 witness: the attribution invariant at a concrete overlapping pair. -/
theorem overlap_attribution_witness :
    ∃ ci, SAT.overlap (.circle ⟨⟨0, 0⟩, 1, 1, false⟩) (.circle ⟨⟨1, 0⟩, 1, 1, false⟩) =
        some ci ∧
      ci.shape_a = Shape.circle ⟨⟨0, 0⟩, 1, 1, false⟩ ∧
      ci.shape_b = Shape.circle ⟨⟨1, 0⟩, 1, 1, false⟩ := by
  obtain ⟨ci, hci⟩ := Option.isSome_iff_exists.1 (circle_overlap_isSome false false)
  exact ⟨ci, hci, overlap_attribution _ _ ci hci⟩

/-- C5 counterexample: the claim "at least one of the two shapes is a trigger
⟹ resolution is never dispatched" is false.  The receiver is not a trigger,
the other shape is, a `RigidBody` is present, and `collide` dispatches
physical resolution anyway: only the receiver's `trigger` flag is consulted
(hitbox.py line 63). -/
theorem collide_other_trigger_resolves :
    (collide (.circle ⟨⟨0, 0⟩, 1, 1, false⟩) (.circle ⟨⟨1, 0⟩, 1, 1, true⟩)
        true false).resolved = true ∧
      Shape.trigger (.circle ⟨⟨1, 0⟩, 1, 1, true⟩) = true := by
  obtain ⟨ci, hci⟩ := Option.isSome_iff_exists.1 (circle_overlap_isSome false true)
  refine ⟨?_, rfl⟩
  simp [collide, hci, Shape.trigger]

/-- C5 (amended): when `overlap` is non-null and the *receiving* shape is a
trigger, physical resolution is never dispatched while all three collision
callbacks still run; the other shape's trigger flag is not consulted. -/
theorem collide_self_trigger_skips_resolution (a b : Shape) (self_rb other_rb : Bool)
    (col : CollisionInfo) (h : SAT.overlap a b = some col) (ht : a.trigger = true) :
    (collide a b self_rb other_rb).resolved = false ∧
      (collide a b self_rb other_rb).site_callback = true ∧
      (collide a b self_rb other_rb).self_callback = true ∧
      (collide a b self_rb other_rb).other_callback = true := by
  simp [collide, h, ht]

/-- C5 witness: a trigger receiver overlapping a non-trigger shape skips
resolution but fires every callback. -/
theorem collide_self_trigger_witness :
    (collide (.circle ⟨⟨0, 0⟩, 1, 1, true⟩) (.circle ⟨⟨1, 0⟩, 1, 1, false⟩)
        true true).resolved = false ∧
      (collide (.circle ⟨⟨0, 0⟩, 1, 1, true⟩) (.circle ⟨⟨1, 0⟩, 1, 1, false⟩)
        true true).site_callback = true ∧
      (collide (.circle ⟨⟨0, 0⟩, 1, 1, true⟩) (.circle ⟨⟨1, 0⟩, 1, 1, false⟩)
        true true).self_callback = true ∧
      (collide (.circle ⟨⟨0, 0⟩, 1, 1, true⟩) (.circle ⟨⟨1, 0⟩, 1, 1, false⟩)
        true true).other_callback = true := by
  obtain ⟨ci, hci⟩ := Option.isSome_iff_exists.1 (circle_overlap_isSome true false)
  exact collide_self_trigger_skips_resolution _ _ true true ci hci rfl

/-- C8 counterexample: the claim "constructing a Polygon with fewer than 3
vertices fails at construction" is false.  `Polygon.__init__` only assigns
fields, so a 2-vertex polygon is accepted. -/
theorem polygon_init_no_vertex_check :
    polygonInit [⟨0, 0⟩, ⟨1, 0⟩] 0 1 false =
        .ok ⟨⟨0, 0⟩, [⟨0, 0⟩, ⟨1, 0⟩], 0, 1, false⟩ ∧
      ([(⟨0, 0⟩ : Vector), ⟨1, 0⟩]).length < 3 :=
  ⟨rfl, by norm_num⟩

/-- C8 (amended): the vertex-count check lives in `generate_polygon`, not in
`Polygon.__init__`: `generate_polygon` raises `SideError` for fewer than 3
sides and returns the `n` vertices otherwise, while `Polygon.__init__` accepts
any vertex list unvalidated. -/
theorem generate_polygon_side_check (n : ℕ) (radius : ℝ) (verts : List Vector)
    (rot scl : ℝ) (trig : Bool) :
    (n < 3 → generate_polygon n radius =
      .error "SideError: cannot create a polygon with less than three sides") ∧
    (3 ≤ n → (generate_polygon n radius).map List.length = .ok n) ∧
    polygonInit verts rot scl trig = .ok ⟨⟨0, 0⟩, verts, rot, scl, trig⟩ := by
  refine ⟨fun h => ?_, fun h => ?_, rfl⟩
  · simp only [generate_polygon, if_pos h]
  · simp only [generate_polygon, if_neg (not_lt.2 h), Except.map]
    rw [List.length_map, List.length_range]

/-- C8 witness: 2 sides raise, 5 sides yield 5 vertices, and a 1-vertex
polygon is constructed without complaint. -/
theorem generate_polygon_side_check_witness :
    generate_polygon 2 1 =
        .error "SideError: cannot create a polygon with less than three sides" ∧
      (generate_polygon 5 1).map List.length = .ok 5 ∧
      polygonInit [⟨0, 0⟩] 0 1 false = .ok ⟨⟨0, 0⟩, [⟨0, 0⟩], 0, 1, false⟩ :=
  ⟨(generate_polygon_side_check 2 1 [] 0 1 false).1 (by norm_num),
   (generate_polygon_side_check 5 1 [] 0 1 false).2.1 (by norm_num),
   (generate_polygon_side_check 0 0 [⟨0, 0⟩] 0 1 false).2.2⟩

/-- The physical state of a `RigidBody` component (rigidbody.py lines 36–70),
with the owning game object's mutable `pos` and `rotation` folded in as fields
(the component reads and writes them through `self.gameobj`). -/
structure RigidBody where
  static : Bool
  gravity : Vector
  friction : ℝ
  max_speed : Vector
  pos_correction : ℝ
  velocity : Vector
  ang_vel : ℝ
  inv_mass : ℝ
  inv_moment : ℝ
  bounciness : ℝ
  pos : Vector
  rotation : ℝ

/-- The `mass` accessor (rigidbody.py lines 72–78): 0 when the inverse mass is
0, else its reciprocal. -/
def RigidBody.mass (rb : RigidBody) : ℝ :=
  if rb.inv_mass = 0 then 0 else 1 / rb.inv_mass

/-- `RigidBody.add_force` (rigidbody.py lines 111–120): the velocity gains
`force * inv_mass * milli_to_sec(fixed_delta)`.  `fixed_delta` stands for the
global `Time.fixed_delta` (milliseconds). -/
def RigidBody.add_force (rb : RigidBody) (force : Vector) (fixed_delta : ℝ) :
    RigidBody :=
  { rb with velocity := rb.velocity + (force * rb.inv_mass) * Time.milli_to_sec fixed_delta }

/-- `RigidBody.physics` (rigidbody.py lines 102–109): apply gravity as a force
(`gravity * mass`), clamp the velocity componentwise into
`[-max_speed, max_speed]`, then advance the owner's position by
`velocity * milli_to_sec(fixed_delta)` and its rotation by
`ang_vel * milli_to_sec(fixed_delta)`. -/
def RigidBody.physics (rb : RigidBody) (fixed_delta : ℝ) : RigidBody :=
  let rb₁ := rb.add_force (rb.gravity * rb.mass) fixed_delta
  let v := rb₁.velocity.clamp (-rb₁.max_speed) rb₁.max_speed
  { rb₁ with
    velocity := v,
    pos := rb₁.pos + v * Time.milli_to_sec fixed_delta,
    rotation := rb₁.rotation + rb₁.ang_vel * Time.milli_to_sec fixed_delta }

/-- `RigidBody.fixed_update` (rigidbody.py lines 138–141): run `physics`
unless static. -/
def RigidBody.fixed_update (rb : RigidBody) (fixed_delta : ℝ) : RigidBody :=
  if rb.static then rb else rb.physics fixed_delta

/-- C10: for every non-static rigidbody with `inv_mass = 0`, `add_force` never
changes the velocity; `physics` (reached from `fixed_update`) leaves the
velocity at its gravity-free clamped value, yet still advances the position by
the body's velocity times the fixed delta and the rotation by the angular
velocity times the fixed delta. -/
theorem rigidbody_infinite_mass (rb : RigidBody) (fixed_delta : ℝ)
    (h₀ : rb.inv_mass = 0) (hs : rb.static = false) :
    (∀ force, (rb.add_force force fixed_delta).velocity = rb.velocity) ∧
      rb.fixed_update fixed_delta = rb.physics fixed_delta ∧
      (rb.physics fixed_delta).velocity =
        rb.velocity.clamp (-rb.max_speed) rb.max_speed ∧
      (rb.physics fixed_delta).pos =
        rb.pos + (rb.physics fixed_delta).velocity * Time.milli_to_sec fixed_delta ∧
      (rb.physics fixed_delta).rotation =
        rb.rotation + rb.ang_vel * Time.milli_to_sec fixed_delta := by
  have hforce : ∀ force, (rb.add_force force fixed_delta).velocity = rb.velocity := by
    intro force
    simp [RigidBody.add_force, h₀]
  refine ⟨hforce, ?_, ?_, ?_, ?_⟩
  · simp [RigidBody.fixed_update, hs]
  · simp [RigidBody.physics, RigidBody.add_force, h₀]
  · simp [RigidBody.physics, RigidBody.add_force, h₀]
  · simp [RigidBody.physics, RigidBody.add_force, h₀]

/-- C10 witness: a concrete massless, non-static body. -/
theorem rigidbody_infinite_mass_witness :
    (RigidBody.add_force ⟨false, ⟨0, -5⟩, 0, ⟨10, 10⟩, 1, ⟨5, 0⟩, 2, 0, 0, 0, ⟨0, 0⟩, 0⟩
        ⟨3, 4⟩ 100).velocity = (⟨5, 0⟩ : Vector) ∧
      (RigidBody.physics ⟨false, ⟨0, -5⟩, 0, ⟨10, 10⟩, 1, ⟨5, 0⟩, 2, 0, 0, 0, ⟨0, 0⟩, 0⟩
        100).velocity = Vector.clamp ⟨5, 0⟩ (-(⟨10, 10⟩ : Vector)) ⟨10, 10⟩ ∧
      (RigidBody.physics ⟨false, ⟨0, -5⟩, 0, ⟨10, 10⟩, 1, ⟨5, 0⟩, 2, 0, 0, 0, ⟨0, 0⟩, 0⟩
        100).pos = (⟨0, 0⟩ : Vector) +
          (RigidBody.physics ⟨false, ⟨0, -5⟩, 0, ⟨10, 10⟩, 1, ⟨5, 0⟩, 2, 0, 0, 0, ⟨0, 0⟩, 0⟩
            100).velocity * Time.milli_to_sec 100 ∧
      (RigidBody.physics ⟨false, ⟨0, -5⟩, 0, ⟨10, 10⟩, 1, ⟨5, 0⟩, 2, 0, 0, 0, ⟨0, 0⟩, 0⟩
        100).rotation = 0 + 2 * Time.milli_to_sec 100 := by
  obtain ⟨h₁, -, h₃, h₄, h₅⟩ :=
    rigidbody_infinite_mass ⟨false, ⟨0, -5⟩, 0, ⟨10, 10⟩, 1, ⟨5, 0⟩, 2, 0, 0, 0, ⟨0, 0⟩, 0⟩
      100 rfl rfl
  exact ⟨h₁ ⟨3, 4⟩, h₃, h₄, h₅⟩

/-- Modelled from the spec: the collision manifold consumed by the resolver —
penetration depth, unit normal, and the two contact points relative to each
body's center.  The resolver reads each shape's sibling `RigidBody` through
`col.shape_X.gameobj.get(RigidBody)`, which may be absent; those two lookup
results are carried here as `Option RigidBody` fields. -/
structure Manifold where
  shape_a_body : Option RigidBody
  shape_b_body : Option RigidBody
  penetration : ℝ
  normal : Vector
  contact_a : Vector
  contact_b : Vector

/-- The relative contact velocity `rv` of `handle_collision` (rigidbody.py
lines 197–198): `(0 if b_none else rb_b.velocity − contact_b⊥·angVel_b) −
(0 if a_none else rb_a.velocity − contact_a⊥·angVel_a)`, where
`rb_a = col.shape_b`'s body and `rb_b = col.shape_a`'s body. -/
def RigidBody.relative_velocity (col : Manifold) : Vector :=
  (match col.shape_a_body with
   | none => ⟨0, 0⟩
   | some rb => rb.velocity - col.contact_b.perpendicular rb.ang_vel) -
  (match col.shape_b_body with
   | none => ⟨0, 0⟩
   | some rb => rb.velocity - col.contact_a.perpendicular rb.ang_vel)

/-- `RigidBody.handle_collision` (rigidbody.py lines 157–259).  Mirrors the
source statement by statement; `rb_a`/`rb_b` are looked up from `shape_b` and
`shape_a` respectively (lines 167–168).  Every `None`-guarded attribute access
whose guard matches its target is total; the two accesses whose guard can
mismatch their target are modelled in `Except`, and in particular line 208
computes `i_b` from `rb_b.inv_moment` under the guard `a_none` (not `b_none`),
which dereferences `None` whenever only `rb_b` is missing.  Returns the
updated `(rb_a, rb_b)` pair. -/
def RigidBody.handle_collision (col : Manifold) :
    Except String (Option RigidBody × Option RigidBody) :=
  let rb_a := col.shape_b_body
  let rb_b := col.shape_a_body
  let a_none := rb_a.isNone
  let b_none := rb_b.isNone
  if a_none && b_none then .ok (rb_a, rb_b)
  else
    let inv_mass_a₀ : ℝ := match rb_a with | none => 0 | some rb => rb.inv_mass
    let inv_mass_b₀ : ℝ := match rb_b with | none => 0 | some rb => rb.inv_mass
    let masses : ℝ × ℝ :=
      if inv_mass_a₀ = 0 ∧ inv_mass_b₀ = 0 then
        if a_none then (inv_mass_a₀, 1)
        else if b_none then (1, inv_mass_b₀)
        else (1, 1)
      else (inv_mass_a₀, inv_mass_b₀)
    let inv_mass_a := masses.1
    let inv_mass_b := masses.2
    let inv_sys_mass := 1 / (inv_mass_a + inv_mass_b)
    let correction := (max (col.penetration - 0.01) 0 * inv_sys_mass) * col.normal
    let rv := relative_velocity col
    let vel_along_norm := rv.dot col.normal
    if vel_along_norm > 0 then .ok (rb_a, rb_b)
    else
      let e := max (match rb_a with | none => (0 : ℝ) | some rb => rb.bounciness)
                   (match rb_b with | none => (0 : ℝ) | some rb => rb.bounciness)
      let i_a : ℝ := match rb_a with
        | none => 0
        | some rb => (col.contact_a.cross col.normal) ^ 2 * rb.inv_moment
      let i_b_e : Except String ℝ :=
        if a_none then .ok 0
        else match rb_b with
          | none => .error "AttributeError: NoneType object has no attribute inv_moment"
          | some rb => .ok ((col.contact_b.cross col.normal) ^ 2 * rb.inv_moment)
      match i_b_e with
      | .error msg => .error msg
      | .ok i_b =>
        let j := -(1 + e) * vel_along_norm / (inv_mass_a + inv_mass_b + i_a + i_b)
        let impulse := j * col.normal
        let rb_a₁ := rb_a.map fun rb =>
          if rb.static then rb
          else { rb with
                 pos := rb.pos - inv_mass_a * correction * rb.pos_correction,
                 velocity := rb.velocity - inv_mass_a * impulse,
                 ang_vel := rb.ang_vel - col.contact_a.cross impulse * rb.inv_moment }
        let rb_b₁ := rb_b.map fun rb =>
          if rb.static then rb
          else { rb with
                 pos := rb.pos + inv_mass_b * correction * rb.pos_correction,
                 velocity := rb.velocity + inv_mass_b * impulse,
                 ang_vel := rb.ang_vel + col.contact_b.cross impulse * rb.inv_moment }
        let mu_e : Except String ℝ :=
          if a_none then
            match rb_b with
            | none => .error "AttributeError: NoneType object has no attribute friction"
            | some rb => .ok (rb.friction * rb.friction)
          else if b_none then
            match rb_a with
            | none => .error "AttributeError: NoneType object has no attribute friction"
            | some rb => .ok (rb.friction * rb.friction)
          else
            match rb_a, rb_b with
            | some ra, some rbb =>
              .ok (min (ra.friction * ra.friction) (rbb.friction * rbb.friction))
            | _, _ => .error "AttributeError: NoneType object has no attribute friction"
        match mu_e with
        | .error msg => .error msg
        | .ok mu =>
          if mu = 0 then .ok (rb_a₁, rb_b₁)
          else
            let tangent := (rv - rv.dot col.normal * col.normal).unit
            let jt := -(rv.dot tangent) * inv_sys_mass
            let friction_impulse :=
              if |jt| < j * mu then jt * tangent else (-j) * tangent * mu
            let rb_a₂ := rb_a₁.map fun rb =>
              if rb.static then rb
              else { rb with
                     velocity := rb.velocity - inv_mass_a * friction_impulse,
                     ang_vel := rb.ang_vel -
                       col.contact_a.cross friction_impulse * rb.inv_moment }
            let rb_b₂ := rb_b₁.map fun rb =>
              if rb.static then rb
              else { rb with
                     velocity := rb.velocity + inv_mass_b * friction_impulse,
                     ang_vel := rb.ang_vel +
                       col.contact_b.cross friction_impulse * rb.inv_moment }
            .ok (rb_a₂, rb_b₂)

/-- C6: for every manifold whose relative contact velocity satisfies
`rv · normal > 0` (bodies already separating), `handle_collision` returns the
two looked-up bodies unchanged — the early return fires before the positional
correction or the impulse is applied, so velocities, angular velocities, and
positions are all untouched. -/
theorem handle_collision_separating (col : Manifold)
    (h : (RigidBody.relative_velocity col).dot col.normal > 0) :
    RigidBody.handle_collision col = .ok (col.shape_b_body, col.shape_a_body) := by
  rw [RigidBody.handle_collision]
  by_cases hab : (col.shape_b_body.isNone && col.shape_a_body.isNone) = true
  · rw [if_pos hab]
  · rw [if_neg hab, if_pos h]

/-- C6 witness: a concrete manifold with a single body moving along the
normal, `rv · normal = 1 > 0`, resolved to the unchanged pair. -/
theorem handle_collision_separating_witness :
    (RigidBody.relative_velocity
        ⟨some ⟨false, ⟨0, 0⟩, 0, ⟨0, 0⟩, 1, ⟨1, 0⟩, 0, 1, 1, 0, ⟨0, 0⟩, 0⟩, none,
          1, ⟨1, 0⟩, ⟨0, 0⟩, ⟨0, 0⟩⟩).dot (Vector.mk 1 0) > 0 ∧
      RigidBody.handle_collision
          ⟨some ⟨false, ⟨0, 0⟩, 0, ⟨0, 0⟩, 1, ⟨1, 0⟩, 0, 1, 1, 0, ⟨0, 0⟩, 0⟩, none,
            1, ⟨1, 0⟩, ⟨0, 0⟩, ⟨0, 0⟩⟩ =
        .ok (none, some ⟨false, ⟨0, 0⟩, 0, ⟨0, 0⟩, 1, ⟨1, 0⟩, 0, 1, 1, 0, ⟨0, 0⟩, 0⟩) := by
  have h : (RigidBody.relative_velocity
      ⟨some ⟨false, ⟨0, 0⟩, 0, ⟨0, 0⟩, 1, ⟨1, 0⟩, 0, 1, 1, 0, ⟨0, 0⟩, 0⟩, none,
        1, ⟨1, 0⟩, ⟨0, 0⟩, ⟨0, 0⟩⟩).dot (Vector.mk 1 0) > 0 := by
    norm_num [RigidBody.relative_velocity, Vector.perpendicular, Vector.dot]
  exact ⟨h, handle_collision_separating _ h⟩

/-- C2: `handle_collision` does raise on a "missing body" configuration.  With
`shape_a`'s body absent, `shape_b`'s body present and the bodies not
separating, line 208 (`i_b = 0 if a_none else … rb_b.inv_moment`) dereferences
the absent `rb_b`: the guard tests `a_none` instead of `b_none`, so resolution
dies with an `AttributeError` instead of completing through a fallback. -/
theorem handle_collision_missing_body_raises :
    RigidBody.handle_collision
        ⟨none, some ⟨false, ⟨0, 0⟩, 0, ⟨0, 0⟩, 1, ⟨1, 0⟩, 0, 1, 1, 0, ⟨0, 0⟩, 0⟩,
          1, ⟨1, 0⟩, ⟨0, 0⟩, ⟨0, 0⟩⟩ =
      .error "AttributeError: NoneType object has no attribute inv_moment" := by
  rw [RigidBody.handle_collision]
  have hsep : ¬ (RigidBody.relative_velocity
      ⟨none, some ⟨false, ⟨0, 0⟩, 0, ⟨0, 0⟩, 1, ⟨1, 0⟩, 0, 1, 1, 0, ⟨0, 0⟩, 0⟩,
        1, ⟨1, 0⟩, ⟨0, 0⟩, ⟨0, 0⟩⟩).dot (Vector.mk 1 0) > 0 := by
    norm_num [RigidBody.relative_velocity, Vector.perpendicular, Vector.dot]
  rw [if_neg (by simp), if_neg hsep]
  rfl

/-- The attribute names `class RigidBody` defines (rigidbody.py: the
`__init__`-assigned fields, the properties, and the methods).  The `Component`
base class — modelled from the spec — contributes only the component
lifecycle, no force helpers. -/
def rigidBodyAttrNames : List String :=
  ["static", "gravity", "friction", "max_speed", "pos_correction", "velocity",
   "ang_vel", "singular", "inv_mass", "inv_moment", "bounciness", "mass",
   "moment", "physics", "add_force", "add_cont_force", "fixed_update", "clone",
   "handle_collision"]

/-- Python attribute lookup on a `RigidBody` instance: does the class define
the name? -/
def rigidBodyHasAttr (name : String) : Bool := rigidBodyAttrNames.contains name

/-- `RigidBody.add_cont_force` (rigidbody.py lines 122–136): on `time <= 0` it
does nothing; otherwise it applies the force once via `add_force` and, through
`Time.delayed_frames(1, …)` — modelled from the spec as the scheduler's
"delay one frame, then invoke" primitive — schedules
`lambda: self.add_impulse(impulse, time - Time.delta_time)`.  Evaluating that
thunk on the next frame is an attribute lookup of `"add_impulse"`, which
raises `AttributeError` when the class defines no such name.  Returns the
post-application body paired with the scheduled thunk's next-frame outcome
(`none` when nothing was scheduled). -/
def RigidBody.add_cont_force (rb : RigidBody) (impulse : Vector) (time : ℝ)
    (fixed_delta delta_time : ℝ) :
    RigidBody × Option (Except String (Vector × ℝ)) :=
  if time ≤ 0 then (rb, none)
  else
    (rb.add_force impulse fixed_delta,
     some (if rigidBodyHasAttr "add_impulse" then .ok (impulse, time - delta_time)
           else .error "AttributeError: RigidBody object has no attribute add_impulse"))

/-- Modelled from the spec: `addContinuousForce(force, durationSeconds)`
applies the force once, then reapplies on each subsequent tick with the
duration decremented by the frame's elapsed time, terminating when the
remaining duration is `<= 0`.  Counts the applications; `fuel` bounds the
recursion. -/
def specContForceApplications (delta_time : ℝ) : ℕ → ℝ → ℕ
  | 0, _ => 0
  | fuel + 1, time =>
    if time ≤ 0 then 0
    else specContForceApplications delta_time fuel (time - delta_time) + 1

/-- C4: the claim's reapplication loop never happens.  `rigidbody.py` defines
no `add_impulse` attribute, so for a positive duration `add_cont_force`
applies the force exactly once and the thunk it schedules raises
`AttributeError` on the next frame — whereas the spec's self-rescheduling
semantics would apply the force 3 times for a 3 s duration at 1 s per
frame. -/
theorem add_cont_force_add_impulse_undefined :
    rigidBodyHasAttr "add_impulse" = false ∧
      (RigidBody.add_cont_force
          ⟨false, ⟨0, 0⟩, 0, ⟨0, 0⟩, 1, ⟨0, 0⟩, 0, 1, 1, 0, ⟨0, 0⟩, 0⟩
          ⟨1, 0⟩ 3 100 1000) =
        (RigidBody.add_force ⟨false, ⟨0, 0⟩, 0, ⟨0, 0⟩, 1, ⟨0, 0⟩, 0, 1, 1, 0, ⟨0, 0⟩, 0⟩
            ⟨1, 0⟩ 100,
         some (.error "AttributeError: RigidBody object has no attribute add_impulse")) ∧
      specContForceApplications 1 10 3 = 3 := by
  refine ⟨rfl, ?_, ?_⟩
  · rw [RigidBody.add_cont_force, if_neg (by norm_num : ¬ (3 : ℝ) ≤ 0)]
    rfl
  · norm_num [specContForceApplications]

end Rubato

